import Mathlib

/-!
Shallow embedding of the sales-dashboard pipeline in `streamlit_app.py`:
load (encoding fallback) → normalize → filter → aggregate → summarize,
plus the export-filename suggestion.  Monetary amounts (`CANTIDAD`,
`PRECIO_TOTAL_ORIG`) are modelled as `Int` (amounts in the smallest
currency unit); every pipeline operation on them is a sum, a comparison
with zero, or a max/min, all of which are expressed unchanged over `Int`.
Tables are lists of records, in pandas row order.
-/

/-- A parsed calendar date (the result of `pd.to_datetime`). -/
structure Fecha where
  anio : Nat
  mes : Nat
  dia : Nat
deriving DecidableEq, Repr

/-- A raw `FECHA_DOCUMENTO` value before `pd.to_datetime` (line 574):
either an unambiguous year-month-day form (e.g. ISO `2024-03-05`) or an
ambiguous slashed numeric form `a/b/YYYY` whose reading depends on the
`dayfirst` setting. -/
inductive FechaCruda where
  | ymd (anio mes dia : Nat)
  | barras (a b anio : Nat)
deriving DecidableEq, Repr

/-- A month/day pair is plausible as (month, day). Simplified calendar
bound (day ≤ 31) used by the date parser model. -/
def mesDiaValidos (m d : Nat) : Bool :=
  1 ≤ m && m ≤ 12 && 1 ≤ d && d ≤ 31

/-- Model of `pd.to_datetime` on one value. pandas/dateutil semantics: for
an ambiguous `a/b/year` string, with `dayfirst=False` the reading
(month := a, day := b) is preferred and the swapped reading is used only
when the preferred one is invalid; with `dayfirst=True` the preference is
reversed. The call at line 574 passes no `dayfirst`, so pandas uses its
default `dayfirst=False`. -/
def pdToDatetime (dayfirst : Bool) : FechaCruda → Option Fecha
  | .ymd y m d => if mesDiaValidos m d then some ⟨y, m, d⟩ else none
  | .barras a b y =>
    if dayfirst then
      if mesDiaValidos b a then some ⟨y, b, a⟩
      else if mesDiaValidos a b then some ⟨y, a, b⟩
      else none
    else
      if mesDiaValidos a b then some ⟨y, a, b⟩
      else if mesDiaValidos b a then some ⟨y, b, a⟩
      else none

/-- Model of `strftime('%B')` (line 577): full month name. The comment on
that line states the names come out in English (C locale). -/
def nombreMes : Nat → String
  | 1 => "January"
  | 2 => "February"
  | 3 => "March"
  | 4 => "April"
  | 5 => "May"
  | 6 => "June"
  | 7 => "July"
  | 8 => "August"
  | 9 => "September"
  | 10 => "October"
  | 11 => "November"
  | 12 => "December"
  | _ => ""

/-- One raw row of the loaded table, with the columns the pipeline uses
(the seven columns produced by the SQL query at lines 535-545). -/
structure FilaCruda where
  codigoProducto : String
  nombreProducto : String
  claseCliente : String
  fechaDocumento : FechaCruda
  cantidad : Int
  precioTotalOrig : Int
  estadoDocumento : String
deriving DecidableEq, Repr

/-- One normalized row: the raw columns plus the derived `AÑO`,
`MES_NUM` and `MES` columns (lines 574-577). -/
structure Fila where
  codigoProducto : String
  nombreProducto : String
  claseCliente : String
  fechaDocumento : Fecha
  cantidad : Int
  precioTotalOrig : Int
  estadoDocumento : String
  anio : Nat
  mesNum : Nat
  mes : String
deriving DecidableEq, Repr

/-- Normalization of one surviving row (lines 574-577): parse the date
with the pandas default `dayfirst=False`, then derive year, month number
and month name from the parsed date. -/
def normalizarFila (r : FilaCruda) : Option Fila :=
  (pdToDatetime false r.fechaDocumento).map fun d =>
    { codigoProducto := r.codigoProducto
      nombreProducto := r.nombreProducto
      claseCliente := r.claseCliente
      fechaDocumento := d
      cantidad := r.cantidad
      precioTotalOrig := r.precioTotalOrig
      estadoDocumento := r.estadoDocumento
      anio := d.anio
      mesNum := d.mes
      mes := nombreMes d.mes }

/-- Columnwise `pd.to_datetime` over the whole table: fails (raises, so
`cargar_datos` falls into its `except` branch) when any single value
fails to parse. -/
def normalizarFilas : List FilaCruda → Option (List Fila)
  | [] => some []
  | r :: rs =>
    match normalizarFila r, normalizarFilas rs with
    | some f, some fs => some (f :: fs)
    | _, _ => none

/-- The Row Normalizer (`cargar_datos`, lines 572-577): first drop every
row with `CANTIDAD == 0` (line 572), then parse dates and derive the
calendar columns. `none` models the `except` path (line 581). -/
def cargarDatos (crudas : List FilaCruda) : Option (List Fila) :=
  normalizarFilas (crudas.filter fun r => !(r.cantidad == 0))

/-- The Filter Engine (lines 626-633): conjunction of the four
multiselect membership filters, where an empty product-code selection
(Python falsy list, line 630) imposes no restriction. -/
def dfFiltrado (filas : List Fila) (anios : List Nat) (meses : List String)
    (codigos : List String) (clases : List String) : List Fila :=
  let d1 := filas.filter fun r => anios.contains r.anio
  let d2 := d1.filter fun r => meses.contains r.mes
  let d3 := if codigos.isEmpty then d2
            else d2.filter fun r => codigos.contains r.codigoProducto
  d3.filter fun r => clases.contains r.claseCliente

/-- The grouping key of `groupby` at lines 639-641:
`(CODIGO_PRODUCTO, AÑO, MES_NUM, MES)`. -/
abbrev Clave := String × Nat × Nat × String

/-- Key of one row. -/
def clave (r : Fila) : Clave := (r.codigoProducto, r.anio, r.mesNum, r.mes)

/-- The rows of one group, in original row order (pandas `groupby`
preserves the within-group row order of its input). -/
def grupo (filas : List Fila) (k : Clave) : List Fila :=
  filas.filter fun r => decide (clave r = k)

/-- One aggregated row (lines 639-648). The column selection at lines
651-659 keeps the seven display columns; we keep the grouping-key
columns `anio`, `mesNum`, `mes` alongside them since they are determined
by the group and are the sort keys of line 648. -/
structure FilaAgrupada where
  fechaDocumento : Fecha
  codigoProducto : String
  nombreProducto : String
  claseCliente : String
  cantidad : Int
  precioTotalOrig : Int
  estadoDocumento : String
  anio : Nat
  mesNum : Nat
  mes : String
deriving DecidableEq, Repr

/-- The aggregate of one group (the `agg` dict at lines 642-647):
`first` of the date, name, class and status columns — the first row of
the group in original order — and arithmetic sums of `CANTIDAD` and
`PRECIO_TOTAL_ORIG`. -/
def mkFilaAgrupada (filas : List Fila) (k : Clave) : Option FilaAgrupada :=
  match (grupo filas k).head? with
  | none => none
  | some h => some
      { fechaDocumento := h.fechaDocumento
        codigoProducto := k.1
        nombreProducto := h.nombreProducto
        claseCliente := h.claseCliente
        cantidad := ((grupo filas k).map Fila.cantidad).sum
        precioTotalOrig := ((grupo filas k).map Fila.precioTotalOrig).sum
        estadoDocumento := h.estadoDocumento
        anio := k.2.1
        mesNum := k.2.2.1
        mes := k.2.2.2 }

/-- `groupby(...).agg(...).reset_index()` (lines 639-648): one aggregate
row per distinct key, keys taken in first-occurrence order. (pandas
emits group keys sorted; the `sort_values` of line 648 immediately
re-sorts, so the pre-sort order is irrelevant to every later stage.) -/
def agrupar (filas : List Fila) : List FilaAgrupada :=
  ((filas.map clave).dedup).filterMap (mkFilaAgrupada filas)

/-- Code-point lexicographic order on character lists: the order Python
and pandas use to compare strings. -/
def lexLeChars : List Char → List Char → Bool
  | [], _ => true
  | _ :: _, [] => false
  | a :: as, b :: bs =>
    if a.toNat < b.toNat then true
    else if b.toNat < a.toNat then false
    else lexLeChars as bs

/-- Code-point order on strings. -/
def strLe (a b : String) : Bool := lexLeChars a.data b.data

/-- The sort order of `sort_values(['AÑO', 'MES_NUM', 'CODIGO_PRODUCTO'])`
at line 648: ascending lexicographic on the three columns. -/
def ordenFinal (a b : FilaAgrupada) : Prop :=
  a.anio < b.anio ∨
    (a.anio = b.anio ∧
      (a.mesNum < b.mesNum ∨
        (a.mesNum = b.mesNum ∧ strLe a.codigoProducto b.codigoProducto = true)))

instance : DecidableRel ordenFinal := fun a b => by
  unfold ordenFinal; infer_instance

/-- `df_agrupado` (lines 639-648): aggregation followed by the ascending
sort on `(AÑO, MES_NUM, CODIGO_PRODUCTO)`. -/
def dfAgrupado (filas : List Fila) : List FilaAgrupada :=
  List.insertionSort ordenFinal (agrupar filas)

/-- `df_final` (lines 651-662): the sorted aggregation with the rows
whose summed `CANTIDAD` is zero removed (line 661) and then the rows
whose summed `PRECIO_TOTAL_ORIG` is zero removed (line 662). -/
def dfFinal (filas : List Fila) : List FilaAgrupada :=
  ((dfAgrupado filas).filter fun a => !(a.cantidad == 0)).filter
    fun a => !(a.precioTotalOrig == 0)

/-- `total_ventas` (line 664): sum of `PRECIO_TOTAL_ORIG` over `df_final`. -/
def totalVentas (t : List FilaAgrupada) : Int :=
  (t.map FilaAgrupada.precioTotalOrig).sum

/-- The maximum of the `PRECIO_TOTAL_ORIG` column (`Series.max`, line 669);
`none` on an empty table. -/
def maxPrecio : List FilaAgrupada → Option Int
  | [] => none
  | a :: t =>
    some (match maxPrecio t with
          | none => a.precioTotalOrig
          | some m => max a.precioTotalOrig m)

/-- The minimum of the `PRECIO_TOTAL_ORIG` column (line 674). -/
def minPrecio : List FilaAgrupada → Option Int
  | [] => none
  | a :: t =>
    some (match minPrecio t with
          | none => a.precioTotalOrig
          | some m => min a.precioTotalOrig m)

/-- `fila_max` (line 671): `df.loc[df['PRECIO_TOTAL_ORIG'].idxmax()]`.
`idxmax` returns the index of the first occurrence of stored maximum, and
raises `ValueError` on an empty column — modelled by `none`. -/
def filaMax (t : List FilaAgrupada) : Option FilaAgrupada :=
  (maxPrecio t).bind fun m => t.find? fun a => a.precioTotalOrig == m

/-- `fila_min` (line 676): first row attaining the minimum. -/
def filaMin (t : List FilaAgrupada) : Option FilaAgrupada :=
  (minPrecio t).bind fun m => t.find? fun a => a.precioTotalOrig == m

/-- Outcome of one filter-and-summarize run. -/
inductive ResultadoPipeline where
  /-- The `else` branch at line 859: the empty-filter warning. -/
  | sinDatos
  /-- Normal run: total, item count, max row, min row (lines 664-687). -/
  | resumen (total : Int) (items : Nat) (fmax fmin : FilaAgrupada)
  /-- `idxmax`/`idxmin` invoked on an empty `df_final`: the uncaught
  `ValueError` at line 671. -/
  | errorIdxVacio
deriving DecidableEq, Repr

/-- The guarded pipeline section (lines 638-687): the `if not
df_filtrado.empty` gate, then aggregation, zero-discard and the summary
metric computations. -/
def ejecutarPipeline (filas : List Fila) (anios : List Nat)
    (meses codigos clases : List String) : ResultadoPipeline :=
  let filt := dfFiltrado filas anios meses codigos clases
  if filt.isEmpty then .sinDatos
  else
    let final := dfFinal filt
    match filaMax final, filaMin final with
    | some a, some b => .resumen (totalVentas final) final.length a b
    | _, _ => .errorIdxVacio

/-- The four encodings tried by the loader (line 59). -/
inductive Codificacion where
  | latin1
  | iso8859_1
  | cp1252
  | utf8
deriving DecidableEq, Repr

/-- The loader's encoding list, in source order (line 59). -/
def encodings : List Codificacion :=
  [.latin1, .iso8859_1, .cp1252, .utf8]

/-- Outcome of one `pd.read_csv` attempt under one encoding (lines 63-78):
success, a `UnicodeDecodeError` (line 74), or any other exception
(line 76). -/
inductive ResultadoParse (α : Type) where
  | ok (t : α)
  | decodeError
  | otroError
deriving DecidableEq, Repr

/-- The `for encoding in encodings` loop (lines 61-78): return the first
successful parse; on any exception move to the next encoding. -/
def intentarCodificaciones {α : Type} (parse : Codificacion → ResultadoParse α) :
    List Codificacion → Option α
  | [] => none
  | e :: rest =>
    match parse e with
    | .ok t => some t
    | _ => intentarCodificaciones parse rest

/-- `load_csv_from_onedrive` after a successful fetch (lines 59-81): try
the encodings in order; `none` models the fall-through `return None` at
line 81. The parse outcome of each attempt is a function of the fetched
payload and the encoding, abstracted here as `parse`. -/
def load_csv_from_onedrive {α : Type} (parse : Codificacion → ResultadoParse α) :
    Option α :=
  intentarCodificaciones parse encodings

/-- Overall outcome of one loader call, fetch included. -/
inductive ResultadoCarga (α : Type) where
  /-- An exception escapes the loader (`requests` timeout, or
  `raise_for_status` at line 56). -/
  | excepcion
  /-- A parsed table is returned. -/
  | tabla (t : α)
  /-- The `return None` at line 81. -/
  | nulo
deriving DecidableEq, Repr

/-- `Response.raise_for_status` semantics: raises exactly for 4xx and
5xx status codes. -/
def raiseForStatus (status : Nat) : Bool :=
  400 ≤ status && status < 600

/-- The whole of `load_csv_from_onedrive` (lines 52-81): fetch with a
60-second timeout (`timeoutAgotado` models the timeout having fired),
check the status, then run the encoding loop. -/
def cargaCompleta {α : Type} (timeoutAgotado : Bool) (status : Nat)
    (parse : Codificacion → ResultadoParse α) : ResultadoCarga α :=
  if timeoutAgotado then .excepcion
  else if raiseForStatus status then .excepcion
  else
    match load_csv_from_onedrive parse with
    | some t => .tabla t
    | none => .nulo

/-- Python `sorted` over the selected years (line 838): ascending,
stable. -/
def aniosOrdenados (l : List Nat) : List Nat :=
  List.insertionSort (· ≤ ·) l

/-- Python `sorted` over the selected month names (line 839): ascending
by code point, stable. -/
def mesesOrdenados (l : List String) : List String :=
  List.insertionSort (fun a b => strLe a b = true) l

/-- `años_str` (line 838): underscore-joined sorted literal years, or the
fallback token when more than three are selected. -/
def aniosStr (sel : List Nat) : String :=
  if sel.length ≤ 3 then
    "_".intercalate ((aniosOrdenados sel).map Nat.repr)
  else "varios_años"

/-- `m[:3].lower()` (line 839): first three characters, lowercased. -/
def abrevMes (m : String) : String :=
  String.mk ((m.data.take 3).map Char.toLower)

/-- `meses_str` (line 839): underscore-joined three-letter lowercased
abbreviations of the sorted selected months, or the fallback token when
more than three are selected. -/
def mesesStr (sel : List String) : String :=
  if sel.length ≤ 3 then
    "_".intercalate ((mesesOrdenados sel).map abrevMes)
  else "varios_meses"

/-- `nombre_default` (line 840): the suggested export filename. -/
def nombreDefault (anios : List Nat) (meses : List String) : String :=
  "ventas_" ++ aniosStr anios ++ "_" ++ mesesStr meses ++ ".csv"

/-- The grouping-key fields of one aggregated row. -/
def claveAgrupada (a : FilaAgrupada) : Clave :=
  (a.codigoProducto, a.anio, a.mesNum, a.mes)

/-- Concrete input of the end-to-end scenario: the two `P1` March-2024
rows. -/
def filasC1 : List FilaCruda :=
  [ { codigoProducto := "P1", nombreProducto := "Producto Uno",
      claseCliente := "Minorista", fechaDocumento := .ymd 2024 3 5,
      cantidad := 2, precioTotalOrig := 100, estadoDocumento := "EMITIDO" },
    { codigoProducto := "P1", nombreProducto := "Producto Uno",
      claseCliente := "Minorista", fechaDocumento := .ymd 2024 3 20,
      cantidad := 3, precioTotalOrig := 50, estadoDocumento := "EMITIDO" } ]

/-- The single aggregate row the end-to-end scenario produces. -/
def filaAggC1 : FilaAgrupada :=
  { fechaDocumento := ⟨2024, 3, 5⟩, codigoProducto := "P1",
    nombreProducto := "Producto Uno", claseCliente := "Minorista",
    cantidad := 5, precioTotalOrig := 150, estadoDocumento := "EMITIDO",
    anio := 2024, mesNum := 3, mes := "March" }

/-- A normalized row with nonzero quantity and zero total: it passes the
filter gate but its group is discarded by the zero-total filter. -/
def filaC4 : Fila :=
  { codigoProducto := "P1", nombreProducto := "Prod", claseCliente := "Minorista",
    fechaDocumento := ⟨2024, 3, 5⟩, cantidad := 5, precioTotalOrig := 0,
    estadoDocumento := "EMITIDO", anio := 2024, mesNum := 3, mes := "March" }

/-- Two normalized rows in one group, whose first and later rows carry
different names, classes, dates and statuses. -/
def filasC2W : List Fila :=
  [ { codigoProducto := "A", nombreProducto := "Primero", claseCliente := "Minorista",
      fechaDocumento := ⟨2024, 3, 5⟩, cantidad := 2, precioTotalOrig := 100,
      estadoDocumento := "EMITIDO", anio := 2024, mesNum := 3, mes := "March" },
    { codigoProducto := "A", nombreProducto := "Segundo", claseCliente := "Mayorista",
      fechaDocumento := ⟨2024, 3, 20⟩, cantidad := 3, precioTotalOrig := 50,
      estadoDocumento := "ANULADO", anio := 2024, mesNum := 3, mes := "March" } ]

/-- A raw row whose date is the ambiguous slashed string `05/03/2024`. -/
def filaAmbC7 : FilaCruda :=
  { codigoProducto := "P1", nombreProducto := "Prod", claseCliente := "Minorista",
    fechaDocumento := .barras 5 3 2024, cantidad := 2, precioTotalOrig := 100,
    estadoDocumento := "EMITIDO" }

/-- Raw rows exercising the normalizer: a plain row, a zero-quantity row
(to be dropped), and a returned-goods row with an ambiguous date. -/
def crudasC7W : List FilaCruda :=
  [ { codigoProducto := "P1", nombreProducto := "Uno", claseCliente := "Minorista",
      fechaDocumento := .ymd 2024 3 5, cantidad := 2, precioTotalOrig := 100,
      estadoDocumento := "EMITIDO" },
    { codigoProducto := "P2", nombreProducto := "Dos", claseCliente := "Minorista",
      fechaDocumento := .ymd 2024 4 1, cantidad := 0, precioTotalOrig := 7,
      estadoDocumento := "EMITIDO" },
    { codigoProducto := "P3", nombreProducto := "Tres", claseCliente := "Mayorista",
      fechaDocumento := .barras 7 4 2024, cantidad := -1, precioTotalOrig := -50,
      estadoDocumento := "ANULADO" } ]

/-- The normalizer output for `crudasC7W`. -/
def filasC7W : List Fila :=
  [ { codigoProducto := "P1", nombreProducto := "Uno", claseCliente := "Minorista",
      fechaDocumento := ⟨2024, 3, 5⟩, cantidad := 2, precioTotalOrig := 100,
      estadoDocumento := "EMITIDO", anio := 2024, mesNum := 3, mes := "March" },
    { codigoProducto := "P3", nombreProducto := "Tres", claseCliente := "Mayorista",
      fechaDocumento := ⟨2024, 7, 4⟩, cantidad := -1, precioTotalOrig := -50,
      estadoDocumento := "ANULADO", anio := 2024, mesNum := 7, mes := "July" } ]

/-- A small aggregated table with a tie at the maximum total. -/
def tC8W : List FilaAgrupada :=
  [ { fechaDocumento := ⟨2024, 3, 5⟩, codigoProducto := "A", nombreProducto := "Uno",
      claseCliente := "Minorista", cantidad := 1, precioTotalOrig := 7,
      estadoDocumento := "EMITIDO", anio := 2024, mesNum := 3, mes := "March" },
    { fechaDocumento := ⟨2024, 3, 6⟩, codigoProducto := "B", nombreProducto := "Dos",
      claseCliente := "Minorista", cantidad := 1, precioTotalOrig := 7,
      estadoDocumento := "EMITIDO", anio := 2024, mesNum := 3, mes := "March" },
    { fechaDocumento := ⟨2024, 3, 7⟩, codigoProducto := "C", nombreProducto := "Tres",
      claseCliente := "Minorista", cantidad := 1, precioTotalOrig := 3,
      estadoDocumento := "EMITIDO", anio := 2024, mesNum := 3, mes := "March" } ]

/-- A payload parseable only under cp1252. -/
def parseC5W : Codificacion → ResultadoParse Nat := fun e =>
  match e with
  | .cp1252 => .ok 42
  | _ => .decodeError

/-- A payload failing with a non-decode error under latin1 and parsing
under iso-8859-1. -/
def parseC10a : Codificacion → ResultadoParse Nat := fun e =>
  match e with
  | .latin1 => .otroError
  | .iso8859_1 => .ok 9
  | _ => .decodeError

/-- A payload parseable only under utf-8, failing with mixed error kinds
before. -/
def parseC10b : Codificacion → ResultadoParse Nat := fun e =>
  match e with
  | .latin1 => .decodeError
  | .utf8 => .ok 11
  | _ => .otroError

/-- A payload no encoding can parse. -/
def parseC10c : Codificacion → ResultadoParse Nat := fun _ => .decodeError

/-- A payload no encoding can parse (loader-contract fixture). -/
def parseC6fail : Codificacion → ResultadoParse Nat := fun _ => .decodeError

/-- A payload parsing immediately under latin1. -/
def parseC6ok : Codificacion → ResultadoParse Nat := fun e =>
  match e with
  | .latin1 => .ok 5
  | _ => .decodeError

/-! ## Order lemmas for the sort relation -/

theorem lexLeChars_total : ∀ as bs : List Char,
    lexLeChars as bs = true ∨ lexLeChars bs as = true := by
  intro as
  induction as with
  | nil => intro bs; left; rfl
  | cons a as ih =>
    intro bs
    cases bs with
    | nil => right; rfl
    | cons b bs =>
      by_cases hab : a.toNat < b.toNat
      · left; simp [lexLeChars, hab]
      · by_cases hba : b.toNat < a.toNat
        · right; simp [lexLeChars, hba]
        · rcases ih bs with h | h
          · left; simp [lexLeChars, hab, hba, h]
          · right; simp [lexLeChars, hab, hba, h]

theorem lexLeChars_trans : ∀ as bs cs : List Char,
    lexLeChars as bs = true → lexLeChars bs cs = true → lexLeChars as cs = true := by
  intro as
  induction as with
  | nil => intro bs cs _ _; rfl
  | cons a as ih =>
    intro bs cs h1 h2
    cases bs with
    | nil => simp [lexLeChars] at h1
    | cons b bs =>
      cases cs with
      | nil => simp [lexLeChars] at h2
      | cons c cs =>
        simp only [lexLeChars] at h1 h2 ⊢
        by_cases hab : a.toNat < b.toNat
        · by_cases hbc : b.toNat < c.toNat
          · have : a.toNat < c.toNat := by omega
            simp [this]
          · by_cases hcb : c.toNat < b.toNat
            · simp [hbc, hcb] at h2
            · have : a.toNat < c.toNat := by omega
              simp [this]
        · by_cases hba : b.toNat < a.toNat
          · simp [hab, hba] at h1
          · by_cases hbc : b.toNat < c.toNat
            · have : a.toNat < c.toNat := by omega
              simp [this]
            · by_cases hcb : c.toNat < b.toNat
              · simp [hbc, hcb] at h2
              · have hac : ¬ a.toNat < c.toNat := by omega
                have hca : ¬ c.toNat < a.toNat := by omega
                simp only [hab, hba, if_neg, if_false] at h1
                simp only [hbc, hcb, if_neg, if_false] at h2
                simp [hac, hca, ih bs cs h1 h2]

theorem strLe_total (a b : String) : strLe a b = true ∨ strLe b a = true :=
  lexLeChars_total a.data b.data

theorem strLe_trans {a b c : String} (h1 : strLe a b = true) (h2 : strLe b c = true) :
    strLe a c = true :=
  lexLeChars_trans a.data b.data c.data h1 h2

instance : IsTotal FilaAgrupada ordenFinal := by
  constructor
  intro a b
  unfold ordenFinal
  rcases Nat.lt_trichotomy a.anio b.anio with h | h | h
  · left; left; exact h
  · rcases Nat.lt_trichotomy a.mesNum b.mesNum with h2 | h2 | h2
    · left; right; exact ⟨h, Or.inl h2⟩
    · rcases strLe_total a.codigoProducto b.codigoProducto with h3 | h3
      · left; right; exact ⟨h, Or.inr ⟨h2, h3⟩⟩
      · right; right; exact ⟨h.symm, Or.inr ⟨h2.symm, h3⟩⟩
    · right; right; exact ⟨h.symm, Or.inl h2⟩
  · right; left; exact h

instance : IsTrans FilaAgrupada ordenFinal := by
  constructor
  intro a b c h1 h2
  unfold ordenFinal at h1 h2 ⊢
  rcases h1 with h1 | ⟨he1, h1⟩
  · rcases h2 with h2 | ⟨he2, h2⟩
    · left; omega
    · left; omega
  · rcases h2 with h2 | ⟨he2, h2⟩
    · left; omega
    · right
      refine ⟨by omega, ?_⟩
      rcases h1 with h1 | ⟨hm1, h1⟩
      · rcases h2 with h2 | ⟨hm2, h2⟩
        · left; omega
        · left; omega
      · rcases h2 with h2 | ⟨hm2, h2⟩
        · left; omega
        · right; exact ⟨by omega, strLe_trans h1 h2⟩

/-! ## Aggregation lemmas -/

theorem mkFilaAgrupada_clave {filas : List Fila} {k : Clave} {a : FilaAgrupada}
    (h : mkFilaAgrupada filas k = some a) : claveAgrupada a = k := by
  obtain ⟨c, y, m, s⟩ := k
  unfold mkFilaAgrupada at h
  cases hh : (grupo filas (c, y, m, s)).head? with
  | none => rw [hh] at h; cases h
  | some r => rw [hh] at h; cases h; rfl

theorem mkFilaAgrupada_grupo {filas : List Fila} {k : Clave} {a : FilaAgrupada}
    (hmk : mkFilaAgrupada filas k = some a) :
    ∃ h t, grupo filas k = h :: t ∧
      a.fechaDocumento = h.fechaDocumento ∧
      a.nombreProducto = h.nombreProducto ∧
      a.claseCliente = h.claseCliente ∧
      a.estadoDocumento = h.estadoDocumento ∧
      a.cantidad = ((h :: t).map Fila.cantidad).sum ∧
      a.precioTotalOrig = ((h :: t).map Fila.precioTotalOrig).sum := by
  unfold mkFilaAgrupada at hmk
  cases hg : grupo filas k with
  | nil => rw [hg] at hmk; cases hmk
  | cons h t =>
    rw [hg] at hmk
    simp only [List.head?] at hmk
    cases hmk
    exact ⟨h, t, rfl, rfl, rfl, rfl, rfl, rfl, rfl⟩

theorem mem_agrupar_iff {filas : List Fila} {a : FilaAgrupada} :
    a ∈ agrupar filas ↔
      ∃ k ∈ (filas.map clave).dedup, mkFilaAgrupada filas k = some a := by
  unfold agrupar
  exact List.mem_filterMap

theorem mem_dfFinal_agrupar {filas : List Fila} {a : FilaAgrupada}
    (h : a ∈ dfFinal filas) : a ∈ agrupar filas := by
  unfold dfFinal dfAgrupado at h
  have h1 := (List.mem_filter.1 h).1
  have h2 := (List.mem_filter.1 h1).1
  exact (List.mem_insertionSort ordenFinal).1 h2

theorem agrupar_claves_pairwise (filas : List Fila) :
    List.Pairwise (fun a b : FilaAgrupada => claveAgrupada a ≠ claveAgrupada b)
      (agrupar filas) := by
  unfold agrupar
  rw [List.pairwise_filterMap]
  have hnd : ((filas.map clave).dedup).Pairwise (· ≠ ·) := List.nodup_dedup _
  apply hnd.imp
  intro k1 k2 hne a ha b hb
  rw [mkFilaAgrupada_clave ha, mkFilaAgrupada_clave hb]
  exact hne

theorem dfFinal_claves_pairwise (filas : List Fila) :
    List.Pairwise (fun a b : FilaAgrupada => claveAgrupada a ≠ claveAgrupada b)
      (dfFinal filas) := by
  unfold dfFinal dfAgrupado
  have hsym : ∀ {x y : FilaAgrupada},
      claveAgrupada x ≠ claveAgrupada y → claveAgrupada y ≠ claveAgrupada x :=
    fun h => fun he => h he.symm
  have hperm := List.perm_insertionSort ordenFinal (agrupar filas)
  have := (hperm.pairwise_iff hsym).2 (agrupar_claves_pairwise filas)
  exact (this.filter _).filter _

theorem mem_agrupar_mes {filas : List Fila} {a : FilaAgrupada}
    (hmes : ∀ r ∈ filas, r.mes = nombreMes r.mesNum)
    (ha : a ∈ agrupar filas) : a.mes = nombreMes a.mesNum := by
  obtain ⟨k, hk, hmk⟩ := mem_agrupar_iff.1 ha
  obtain ⟨r, hr, hrk⟩ := List.mem_map.1 (List.mem_dedup.1 hk)
  have hcl := mkFilaAgrupada_clave hmk
  have h1 : a.mes = r.mes := by
    rw [← hrk] at hcl
    have := congrArg (fun k : Clave => k.2.2.2) hcl
    simpa [claveAgrupada, clave] using this
  have h2 : a.mesNum = r.mesNum := by
    rw [← hrk] at hcl
    have := congrArg (fun k : Clave => k.2.2.1) hcl
    simpa [claveAgrupada, clave] using this
  rw [h1, h2]
  exact hmes r hr

theorem dfFinal_sorted (filas : List Fila) :
    List.Sorted ordenFinal (dfFinal filas) := by
  unfold dfFinal dfAgrupado
  exact ((List.sorted_insertionSort ordenFinal (agrupar filas)).filter _).filter _

theorem dfFinal_completo {filas : List Fila} {r : Fila} (hr : r ∈ filas)
    (hq : ((grupo filas (clave r)).map Fila.cantidad).sum ≠ 0)
    (hp : ((grupo filas (clave r)).map Fila.precioTotalOrig).sum ≠ 0) :
    ∃ a ∈ dfFinal filas, claveAgrupada a = clave r := by
  have hk : clave r ∈ (filas.map clave).dedup :=
    List.mem_dedup.2 (List.mem_map_of_mem clave hr)
  have hgr : r ∈ grupo filas (clave r) :=
    List.mem_filter.2 ⟨hr, by simp⟩
  cases hmk : mkFilaAgrupada filas (clave r) with
  | none =>
    unfold mkFilaAgrupada at hmk
    cases hg : grupo filas (clave r) with
    | nil => rw [hg] at hgr; cases hgr
    | cons x xs => rw [hg] at hmk; simp [List.head?] at hmk
  | some a =>
    have ha : a ∈ agrupar filas :=
      mem_agrupar_iff.2 ⟨clave r, hk, hmk⟩
    obtain ⟨x, xs, hg, _, _, _, _, hsq, hsp⟩ := mkFilaAgrupada_grupo hmk
    have haq : a.cantidad ≠ 0 := by rw [hsq, ← hg]; exact hq
    have hap : a.precioTotalOrig ≠ 0 := by rw [hsp, ← hg]; exact hp
    refine ⟨a, ?_, mkFilaAgrupada_clave hmk⟩
    unfold dfFinal dfAgrupado
    refine List.mem_filter.2 ⟨List.mem_filter.2 ⟨?_, by simpa using haq⟩, by simpa using hap⟩
    exact (List.mem_insertionSort ordenFinal).2 ha

/-! ## Normalizer lemmas -/

theorem normalizarFilas_map {l : List FilaCruda} {fs : List Fila}
    (h : normalizarFilas l = some fs) : l.map normalizarFila = fs.map some := by
  induction l generalizing fs with
  | nil => cases h; rfl
  | cons r rs ih =>
    unfold normalizarFilas at h
    cases hr : normalizarFila r with
    | none => rw [hr] at h; cases h
    | some f =>
      rw [hr] at h
      cases hrs : normalizarFilas rs with
      | none => rw [hrs] at h; cases h
      | some gs =>
        rw [hrs] at h
        cases h
        simp only [List.map_cons, hr, ih hrs]

theorem normalizarFila_campos {r : FilaCruda} {f : Fila}
    (h : normalizarFila r = some f) :
    f.cantidad = r.cantidad ∧
    pdToDatetime false r.fechaDocumento = some f.fechaDocumento ∧
    f.anio = f.fechaDocumento.anio ∧ f.mesNum = f.fechaDocumento.mes ∧
    f.mes = nombreMes f.fechaDocumento.mes := by
  unfold normalizarFila at h
  cases hd : pdToDatetime false r.fechaDocumento with
  | none => rw [hd] at h; cases h
  | some d =>
    rw [hd] at h
    cases h
    exact ⟨rfl, rfl, rfl, rfl, rfl⟩

/-! ## Summary-calculator lemmas -/

theorem maxPrecio_spec : ∀ t : List FilaAgrupada, t ≠ [] →
    ∃ m, maxPrecio t = some m ∧ (∀ x ∈ t, x.precioTotalOrig ≤ m) ∧
      ∃ x ∈ t, x.precioTotalOrig = m := by
  intro t
  induction t with
  | nil => intro h; exact absurd rfl h
  | cons a t ih =>
    intro _
    cases t with
    | nil =>
      exact ⟨a.precioTotalOrig, rfl, by simp, a, by simp⟩
    | cons b s =>
      obtain ⟨m, hm, hb, x, hx, hxm⟩ := ih (by simp)
      refine ⟨max a.precioTotalOrig m, by simp [maxPrecio] at hm ⊢; rw [hm], ?_, ?_⟩
      · intro y hy
        rcases List.mem_cons.1 hy with rfl | hy
        · exact le_max_left _ _
        · exact le_trans (hb y hy) (le_max_right _ _)
      · rcases max_choice a.precioTotalOrig m with hc | hc
        · exact ⟨a, by simp, hc.symm⟩
        · exact ⟨x, List.mem_cons_of_mem a hx, by rw [hxm, hc]⟩

theorem minPrecio_spec : ∀ t : List FilaAgrupada, t ≠ [] →
    ∃ m, minPrecio t = some m ∧ (∀ x ∈ t, m ≤ x.precioTotalOrig) ∧
      ∃ x ∈ t, x.precioTotalOrig = m := by
  intro t
  induction t with
  | nil => intro h; exact absurd rfl h
  | cons a t ih =>
    intro _
    cases t with
    | nil =>
      exact ⟨a.precioTotalOrig, rfl, by simp, a, by simp⟩
    | cons b s =>
      obtain ⟨m, hm, hb, x, hx, hxm⟩ := ih (by simp)
      refine ⟨min a.precioTotalOrig m, by simp [minPrecio] at hm ⊢; rw [hm], ?_, ?_⟩
      · intro y hy
        rcases List.mem_cons.1 hy with rfl | hy
        · exact min_le_left _ _
        · exact le_trans (min_le_right _ _) (hb y hy)
      · rcases min_choice a.precioTotalOrig m with hc | hc
        · exact ⟨a, by simp, hc.symm⟩
        · exact ⟨x, List.mem_cons_of_mem a hx, by rw [hxm, hc]⟩

/-! ## Loader lemmas -/

theorem intentarCodificaciones_none {α : Type}
    {parse : Codificacion → ResultadoParse α} :
    ∀ {es : List Codificacion}, (∀ e ∈ es, ∀ u : α, parse e ≠ .ok u) →
      intentarCodificaciones parse es = none := by
  intro es
  induction es with
  | nil => intro _; rfl
  | cons e rest ih =>
    intro h
    unfold intentarCodificaciones
    cases he : parse e with
    | ok u => exact absurd he (h e (by simp) u)
    | decodeError => exact ih fun x hx u => h x (List.mem_cons_of_mem e hx) u
    | otroError => exact ih fun x hx u => h x (List.mem_cons_of_mem e hx) u

/-! ## Claims -/

/-- Claim C1: end-to-end scenario. For the two-row input (P1, 2024-03-05,
qty 2, total 100, Minorista) and (P1, 2024-03-20, qty 3, total 50,
Minorista) with selections years 2024, months March, no product codes
and class Minorista, the aggregation outputs exactly the single row
(P1, 2024, 3, March, qty 5, total 150), and the summary over it yields
total 150, item count 1 and that row as both max and min row. -/
theorem claim_C1 :
    (cargarDatos filasC1).map (fun filas =>
      let final := dfFinal (dfFiltrado filas [2024] ["March"] [] ["Minorista"])
      (final, totalVentas final, final.length, filaMax final, filaMin final))
    = some ([filaAggC1], 150, 1, some filaAggC1, some filaAggC1) := by
  decide

/-- Claim C2: on every filtered table whose month names are consistent
with the month numbers (true of every normalizer output), the aggregation
emits one row per surviving group with first-row document date, product
name, customer class and status, summed quantity and total; it discards
every row whose summed quantity or summed total is zero; the result is
sorted ascending by (year, month number, product code); and the
(product code, year, month number) tuple is unique within it. -/
theorem claim_C2 (filas : List Fila)
    (hmes : ∀ r ∈ filas, r.mes = nombreMes r.mesNum) :
    (∀ a ∈ dfFinal filas, a.cantidad ≠ 0 ∧ a.precioTotalOrig ≠ 0) ∧
    (∀ a ∈ dfFinal filas, ∃ h t,
        grupo filas (claveAgrupada a) = h :: t ∧
        a.fechaDocumento = h.fechaDocumento ∧
        a.nombreProducto = h.nombreProducto ∧
        a.claseCliente = h.claseCliente ∧
        a.estadoDocumento = h.estadoDocumento ∧
        a.cantidad = ((h :: t).map Fila.cantidad).sum ∧
        a.precioTotalOrig = ((h :: t).map Fila.precioTotalOrig).sum) ∧
    (∀ r ∈ filas,
        ((grupo filas (clave r)).map Fila.cantidad).sum ≠ 0 →
        ((grupo filas (clave r)).map Fila.precioTotalOrig).sum ≠ 0 →
        ∃ a ∈ dfFinal filas, claveAgrupada a = clave r) ∧
    List.Sorted ordenFinal (dfFinal filas) ∧
    List.Pairwise (fun a b : FilaAgrupada =>
        (a.codigoProducto, a.anio, a.mesNum) ≠ (b.codigoProducto, b.anio, b.mesNum))
      (dfFinal filas) := by
  refine ⟨?_, ?_, ?_, dfFinal_sorted filas, ?_⟩
  · intro a ha
    unfold dfFinal at ha
    have h2 := List.mem_filter.1 ha
    have h1 := List.mem_filter.1 h2.1
    constructor
    · simpa using h1.2
    · simpa using h2.2
  · intro a ha
    obtain ⟨k, hk, hmk⟩ := mem_agrupar_iff.1 (mem_dfFinal_agrupar ha)
    rw [mkFilaAgrupada_clave hmk]
    exact mkFilaAgrupada_grupo hmk
  · intro r hr hq hp
    exact dfFinal_completo hr hq hp
  · have hpw := dfFinal_claves_pairwise filas
    apply hpw.imp_of_mem
    intro a b ha hb hne heq
    apply hne
    have hma : a.mes = nombreMes a.mesNum :=
      mem_agrupar_mes hmes (mem_dfFinal_agrupar ha)
    have hmb : b.mes = nombreMes b.mesNum :=
      mem_agrupar_mes hmes (mem_dfFinal_agrupar hb)
    have h1 : a.codigoProducto = b.codigoProducto := congrArg Prod.fst heq
    have h2 : a.anio = b.anio := congrArg (fun p => p.2.1) heq
    have h3 : a.mesNum = b.mesNum := congrArg (fun p => p.2.2) heq
    unfold claveAgrupada
    rw [h1, h2, h3, hma, hmb, h3]

/-- Claim C2 witness: the aggregation contract instantiated on a concrete
two-row group whose first and later rows differ in every first-row
column. -/
theorem claim_C2_witness :
    (∀ r ∈ filasC2W, r.mes = nombreMes r.mesNum) ∧
    ((∀ a ∈ dfFinal filasC2W, a.cantidad ≠ 0 ∧ a.precioTotalOrig ≠ 0) ∧
     (∀ a ∈ dfFinal filasC2W, ∃ h t,
         grupo filasC2W (claveAgrupada a) = h :: t ∧
         a.fechaDocumento = h.fechaDocumento ∧
         a.nombreProducto = h.nombreProducto ∧
         a.claseCliente = h.claseCliente ∧
         a.estadoDocumento = h.estadoDocumento ∧
         a.cantidad = ((h :: t).map Fila.cantidad).sum ∧
         a.precioTotalOrig = ((h :: t).map Fila.precioTotalOrig).sum) ∧
     (∀ r ∈ filasC2W,
         ((grupo filasC2W (clave r)).map Fila.cantidad).sum ≠ 0 →
         ((grupo filasC2W (clave r)).map Fila.precioTotalOrig).sum ≠ 0 →
         ∃ a ∈ dfFinal filasC2W, claveAgrupada a = clave r) ∧
     List.Sorted ordenFinal (dfFinal filasC2W) ∧
     List.Pairwise (fun a b : FilaAgrupada =>
         (a.codigoProducto, a.anio, a.mesNum) ≠ (b.codigoProducto, b.anio, b.mesNum))
       (dfFinal filasC2W)) :=
  ⟨by decide, claim_C2 filasC2W (by decide)⟩

/-- Claim C3: the Filter Engine returns exactly the rows passing the
conjunction of the four membership predicates, the product-code
predicate imposing no restriction when its selection is empty. -/
theorem claim_C3 (filas : List Fila) (anios : List Nat)
    (meses codigos clases : List String) :
    dfFiltrado filas anios meses codigos clases = filas.filter fun r =>
      anios.contains r.anio && meses.contains r.mes &&
      (codigos.isEmpty || codigos.contains r.codigoProducto) &&
      clases.contains r.claseCliente := by
  unfold dfFiltrado
  dsimp only
  by_cases h : codigos.isEmpty
  · rw [if_pos h]
    simp only [List.filter_filter]
    apply List.filter_congr
    intro r _
    cases anios.contains r.anio <;> cases meses.contains r.mes <;>
      cases clases.contains r.claseCliente <;> simp [h]
  · rw [if_neg h]
    simp only [List.filter_filter]
    apply List.filter_congr
    intro r _
    cases anios.contains r.anio <;> cases meses.contains r.mes <;>
      cases codigos.contains r.codigoProducto <;>
      cases clases.contains r.claseCliente <;>
      simp [h]

/-- Claim C4: the claim says the pipeline stops before the Summary
Calculator whenever the filters or the post-aggregation zero-discard
leave zero rows. The code's gate (line 638) tests only the filtered
table: on a one-row input with nonzero quantity and zero total the gate
passes, the zero-discard empties the final table, and the summary's
idxmax is invoked on an empty table, raising ValueError. This evaluates
the code at that failing input. -/
theorem claim_C4 :
    ejecutarPipeline [filaC4] [2024] ["March"] [] ["Minorista"]
      = ResultadoPipeline.errorIdxVacio ∧
    dfFiltrado [filaC4] [2024] ["March"] [] ["Minorista"] ≠ [] ∧
    dfFinal (dfFiltrado [filaC4] [2024] ["March"] [] ["Minorista"]) = [] := by
  decide

/-- Claim C5: the Loader tries exactly latin1, iso-8859-1, cp1252, utf-8
in that order, and a payload decodable only under cp1252 is parsed with
cp1252. -/
theorem claim_C5 {α : Type} (parse : Codificacion → ResultadoParse α) (t : α)
    (h1 : parse .latin1 = .decodeError) (h2 : parse .iso8859_1 = .decodeError)
    (h3 : parse .cp1252 = .ok t) :
    encodings = [.latin1, .iso8859_1, .cp1252, .utf8] ∧
    load_csv_from_onedrive parse = some t := by
  refine ⟨rfl, ?_⟩
  unfold load_csv_from_onedrive encodings
  unfold intentarCodificaciones
  rw [h1]
  unfold intentarCodificaciones
  rw [h2]
  unfold intentarCodificaciones
  rw [h3]

/-- Claim C5 witness: a payload parseable only under cp1252 yields its
cp1252 table. -/
theorem claim_C5_witness :
    encodings = [.latin1, .iso8859_1, .cp1252, .utf8] ∧
    load_csv_from_onedrive parseC5W = some 42 :=
  claim_C5 parseC5W 42 rfl rfl rfl

/-- Claim C6 counterexample: the claim says that when every encoding
fails the Loader fails and returns no partial or null result, and that a
non-2xx status is a failure. In the code, when every encoding fails the
function returns None (a null result, line 81) instead of raising, and a
304 status passes raise_for_status, so the loader proceeds and returns a
table. -/
theorem claim_C6_counterexample :
    cargaCompleta false 200
        (fun _ : Codificacion => (ResultadoParse.decodeError : ResultadoParse Nat))
      = ResultadoCarga.nulo ∧
    cargaCompleta false 304
        (fun _ : Codificacion => (ResultadoParse.ok 7 : ResultadoParse Nat))
      = ResultadoCarga.tabla 7 := by
  decide

/-- Claim C6 as amended: the Loader raises only when the fetch times out
or the status is 4xx or 5xx; when every encoding fails it returns a null
result (None) rather than raising; otherwise it returns the first
successfully parsed table. -/
theorem claim_C6 {α : Type} (timeoutAgotado : Bool) (status : Nat)
    (parse : Codificacion → ResultadoParse α) (t : α) :
    (timeoutAgotado = true →
      cargaCompleta timeoutAgotado status parse = .excepcion) ∧
    (timeoutAgotado = false → 400 ≤ status → status < 600 →
      cargaCompleta timeoutAgotado status parse = .excepcion) ∧
    (timeoutAgotado = false → ¬(400 ≤ status ∧ status < 600) →
      (∀ e, ∀ u : α, parse e ≠ .ok u) →
      cargaCompleta timeoutAgotado status parse = .nulo) ∧
    (timeoutAgotado = false → ¬(400 ≤ status ∧ status < 600) →
      load_csv_from_onedrive parse = some t →
      cargaCompleta timeoutAgotado status parse = .tabla t) := by
  refine ⟨?_, ?_, ?_, ?_⟩
  · intro h
    simp [cargaCompleta, h]
  · intro h h4 h6
    have hrs : raiseForStatus status = true := by
      simp [raiseForStatus]
      omega
    simp [cargaCompleta, h, hrs]
  · intro h hns hfail
    have hrs : raiseForStatus status = false := by
      simp [raiseForStatus]
      omega
    have hload : load_csv_from_onedrive parse = none :=
      intentarCodificaciones_none fun e _ u => hfail e u
    simp [cargaCompleta, h, hrs, hload]
  · intro h hns hload
    have hrs : raiseForStatus status = false := by
      simp [raiseForStatus]
      omega
    simp [cargaCompleta, h, hrs, hload]

/-- Claim C6 witness: the four loader outcomes at concrete inputs -
timeout, a 404 status, an unparseable payload, and a payload parsed
under latin1. -/
theorem claim_C6_witness :
    cargaCompleta true 200 parseC6fail = ResultadoCarga.excepcion ∧
    cargaCompleta false 404 parseC6fail = ResultadoCarga.excepcion ∧
    cargaCompleta false 200 parseC6fail = ResultadoCarga.nulo ∧
    cargaCompleta false 200 parseC6ok = ResultadoCarga.tabla 5 :=
  ⟨(claim_C6 true 200 parseC6fail 0).1 rfl,
   (claim_C6 false 404 parseC6fail 0).2.1 rfl (by omega) (by omega),
   (claim_C6 false 200 parseC6fail 0).2.2.1 rfl (by omega)
     (by intro e u; cases e <;> simp [parseC6fail]),
   (claim_C6 false 200 parseC6ok 5).2.2.2 rfl (by omega) rfl⟩

/-- Claim C7 counterexample: the claim says ambiguous date strings are
parsed with day-first precedence. For the raw row whose date is the
ambiguous string 05/03/2024, the code (pd.to_datetime at line 574, no
dayfirst argument) derives month 5 (May), while a day-first parse of the
same string gives month 3 (March). -/
theorem claim_C7_counterexample :
    (cargarDatos [filaAmbC7]).map (fun filas => filas.map Fila.mesNum)
      = some [5] ∧
    (pdToDatetime true (.barras 5 3 2024)).map Fecha.mes = some 3 := by
  decide

/-- Claim C7 as amended: the normalizer drops zero-quantity rows first,
then parses document dates with month-first precedence (the pandas
default, since the to_datetime call at line 574 passes no dayfirst),
and derives year, month number and full month name consistently from
the parsed date, adding no rows. -/
theorem claim_C7 (crudas : List FilaCruda) (filas : List Fila)
    (hcarga : cargarDatos crudas = some filas) :
    (∀ f ∈ filas, f.cantidad ≠ 0) ∧
    (crudas.filter fun r => !(r.cantidad == 0)).map normalizarFila = filas.map some ∧
    filas.length = (crudas.filter fun r => !(r.cantidad == 0)).length ∧
    (∀ f ∈ filas, f.anio = f.fechaDocumento.anio ∧ f.mesNum = f.fechaDocumento.mes ∧
        f.mes = nombreMes f.fechaDocumento.mes ∧
        ∃ r ∈ crudas, pdToDatetime false r.fechaDocumento = some f.fechaDocumento) := by
  unfold cargarDatos at hcarga
  have hmap := normalizarFilas_map hcarga
  have hmem : ∀ f ∈ filas, ∃ r ∈ crudas.filter (fun r => !(r.cantidad == 0)),
      normalizarFila r = some f := by
    intro f hf
    have : some f ∈ filas.map some := List.mem_map_of_mem some hf
    rw [← hmap] at this
    obtain ⟨r, hr, hrf⟩ := List.mem_map.1 this
    exact ⟨r, hr, hrf⟩
  refine ⟨?_, hmap, ?_, ?_⟩
  · intro f hf
    obtain ⟨r, hr, hrf⟩ := hmem f hf
    have hq : ¬(r.cantidad == 0) = true := by
      have := (List.mem_filter.1 hr).2
      simp at this
      simpa using this
    have := (normalizarFila_campos hrf).1
    rw [this]
    simpa using hq
  · have := congrArg List.length hmap
    simpa using this.symm
  · intro f hf
    obtain ⟨r, hr, hrf⟩ := hmem f hf
    obtain ⟨_, hd, h1, h2, h3⟩ := normalizarFila_campos hrf
    exact ⟨h1, h2, h3, r, (List.mem_filter.1 hr).1, hd⟩

/-- Claim C7 witness: the amended normalizer contract instantiated on a
three-row raw table with a dropped zero-quantity row and an ambiguous
date. -/
theorem claim_C7_witness :
    cargarDatos crudasC7W = some filasC7W ∧
    ((∀ f ∈ filasC7W, f.cantidad ≠ 0) ∧
     (crudasC7W.filter fun r => !(r.cantidad == 0)).map normalizarFila =
       filasC7W.map some ∧
     filasC7W.length = (crudasC7W.filter fun r => !(r.cantidad == 0)).length ∧
     (∀ f ∈ filasC7W, f.anio = f.fechaDocumento.anio ∧
         f.mesNum = f.fechaDocumento.mes ∧
         f.mes = nombreMes f.fechaDocumento.mes ∧
         ∃ r ∈ crudasC7W, pdToDatetime false r.fechaDocumento = some f.fechaDocumento)) :=
  ⟨by decide, claim_C7 crudasC7W filasC7W (by decide)⟩

/-- Claim C8: on a non-empty aggregated table the summary returns the sum
of totals, the row count, and as max row and min row the first row in
table order attaining the maximum respectively minimum total - strictly
earlier rows do not attain it. -/
theorem claim_C8 (t : List FilaAgrupada) (hne : t ≠ []) :
    totalVentas t = (t.map FilaAgrupada.precioTotalOrig).sum ∧
    (∃ a pre post, filaMax t = some a ∧ t = pre ++ a :: post ∧
      (∀ x ∈ t, x.precioTotalOrig ≤ a.precioTotalOrig) ∧
      (∀ x ∈ pre, x.precioTotalOrig < a.precioTotalOrig)) ∧
    (∃ b pre post, filaMin t = some b ∧ t = pre ++ b :: post ∧
      (∀ x ∈ t, b.precioTotalOrig ≤ x.precioTotalOrig) ∧
      (∀ x ∈ pre, b.precioTotalOrig < x.precioTotalOrig)) := by
  refine ⟨rfl, ?_, ?_⟩
  · obtain ⟨m, hm, hb, x, hx, hxm⟩ := maxPrecio_spec t hne
    cases hf : t.find? (fun a => a.precioTotalOrig == m) with
    | none =>
      exact absurd (by simpa using (List.find?_eq_none.1 hf) x hx) (by simp [hxm])
    | some a =>
      obtain ⟨hpa, pre, post, hdec, hpre⟩ := List.find?_eq_some.1 hf
      have ham : a.precioTotalOrig = m := by simpa using hpa
      refine ⟨a, pre, post, ?_, hdec, ?_, ?_⟩
      · unfold filaMax
        rw [hm]
        simpa using hf
      · intro y hy
        rw [ham]
        exact hb y hy
      · intro y hy
        have hym : y.precioTotalOrig ≠ m := by
          have := hpre y hy
          simpa using this
        have hyt : y ∈ t := by
          rw [hdec]
          exact List.mem_append.2 (Or.inl hy)
        rw [ham]
        exact lt_of_le_of_ne (hb y hyt) hym
  · obtain ⟨m, hm, hb, x, hx, hxm⟩ := minPrecio_spec t hne
    cases hf : t.find? (fun a => a.precioTotalOrig == m) with
    | none =>
      exact absurd (by simpa using (List.find?_eq_none.1 hf) x hx) (by simp [hxm])
    | some b =>
      obtain ⟨hpb, pre, post, hdec, hpre⟩ := List.find?_eq_some.1 hf
      have hbm : b.precioTotalOrig = m := by simpa using hpb
      refine ⟨b, pre, post, ?_, hdec, ?_, ?_⟩
      · unfold filaMin
        rw [hm]
        simpa using hf
      · intro y hy
        rw [hbm]
        exact hb y hy
      · intro y hy
        have hym : y.precioTotalOrig ≠ m := by
          have := hpre y hy
          simpa using this
        have hyt : y ∈ t := by
          rw [hdec]
          exact List.mem_append.2 (Or.inl hy)
        rw [hbm]
        exact lt_of_le_of_ne (hb y hyt) (fun he => hym he.symm)

/-- Claim C8 witness: on a table with a tie at the maximum, the summary
deterministically returns the first tied row. -/
theorem claim_C8_witness :
    tC8W ≠ [] ∧
    (totalVentas tC8W = (tC8W.map FilaAgrupada.precioTotalOrig).sum ∧
     (∃ a pre post, filaMax tC8W = some a ∧ tC8W = pre ++ a :: post ∧
       (∀ x ∈ tC8W, x.precioTotalOrig ≤ a.precioTotalOrig) ∧
       (∀ x ∈ pre, x.precioTotalOrig < a.precioTotalOrig)) ∧
     (∃ b pre post, filaMin tC8W = some b ∧ tC8W = pre ++ b :: post ∧
       (∀ x ∈ tC8W, b.precioTotalOrig ≤ x.precioTotalOrig) ∧
       (∀ x ∈ pre, b.precioTotalOrig < x.precioTotalOrig))) :=
  ⟨by decide, claim_C8 tC8W (by decide)⟩

/-- Claim C9 counterexample: the claim says the filename joins the
literal selected month values. The code (line 839) joins the lowercased
three-letter abbreviations: for years 2024 and month March it suggests
ventas_2024_mar.csv, not ventas_2024_March.csv. -/
theorem claim_C9_counterexample :
    nombreDefault [2024] ["March"] = "ventas_2024_mar.csv" ∧
    "ventas_2024_mar.csv" ≠ "ventas_2024_March.csv" := by
  decide

/-- Claim C9 as amended: the suggested filename is
ventas_<years>_<months>.csv, a pure function of the selections, where
years are the underscore-joined sorted literal values and months the
underscore-joined lowercased three-letter abbreviations of the sorted
values when at most 3 are selected, and the fallback tokens varios_años
and varios_meses when more than 3 are selected. -/
theorem claim_C9 (anios : List Nat) (meses : List String) :
    (anios.length ≤ 3 →
      aniosStr anios = "_".intercalate ((aniosOrdenados anios).map Nat.repr)) ∧
    (3 < anios.length → aniosStr anios = "varios_años") ∧
    (meses.length ≤ 3 →
      mesesStr meses = "_".intercalate ((mesesOrdenados meses).map
        fun m => String.mk ((m.data.take 3).map Char.toLower))) ∧
    (3 < meses.length → mesesStr meses = "varios_meses") ∧
    nombreDefault anios meses =
      "ventas_" ++ aniosStr anios ++ "_" ++ mesesStr meses ++ ".csv" := by
  refine ⟨?_, ?_, ?_, ?_, rfl⟩
  · intro h
    simp [aniosStr, h]
  · intro h
    rw [aniosStr, if_neg (by omega)]
  · intro h
    rw [mesesStr, if_pos h]
    rfl
  · intro h
    rw [mesesStr, if_neg (by omega)]

/-- Claim C9 witness: the four filename cases at concrete selections. -/
theorem claim_C9_witness :
    (aniosStr [2024] = "_".intercalate ((aniosOrdenados [2024]).map Nat.repr)) ∧
    (aniosStr [2024, 2025, 2026, 2027] = "varios_años") ∧
    (mesesStr ["March"] = "_".intercalate ((mesesOrdenados ["March"]).map
       fun m => String.mk ((m.data.take 3).map Char.toLower))) ∧
    (mesesStr ["January", "February", "March", "April"] = "varios_meses") :=
  ⟨(claim_C9 [2024] []).1 (by decide),
   (claim_C9 [2024, 2025, 2026, 2027] []).2.1 (by decide),
   (claim_C9 [] ["March"]).2.2.1 (by decide),
   (claim_C9 [] ["January", "February", "March", "April"]).2.2.2.1 (by decide)⟩

/-- Claim C10: on any exception - decode error or any other parse
failure - the loader advances to the next encoding in the list, returns
the table of the first encoding whose parse succeeds, and returns None
when all four encodings fail. -/
theorem claim_C10 {α : Type} (parse : Codificacion → ResultadoParse α) (t : α) :
    (parse .latin1 = .otroError → parse .iso8859_1 = .ok t →
      load_csv_from_onedrive parse = some t) ∧
    (parse .latin1 = .decodeError → parse .iso8859_1 = .otroError →
      parse .cp1252 = .otroError → parse .utf8 = .ok t →
      load_csv_from_onedrive parse = some t) ∧
    ((∀ e, ∀ u : α, parse e ≠ .ok u) → load_csv_from_onedrive parse = none) := by
  refine ⟨?_, ?_, ?_⟩
  · intro h1 h2
    unfold load_csv_from_onedrive encodings
    unfold intentarCodificaciones
    rw [h1]
    unfold intentarCodificaciones
    rw [h2]
  · intro h1 h2 h3 h4
    unfold load_csv_from_onedrive encodings
    unfold intentarCodificaciones
    rw [h1]
    unfold intentarCodificaciones
    rw [h2]
    unfold intentarCodificaciones
    rw [h3]
    unfold intentarCodificaciones
    rw [h4]
  · intro h
    exact intentarCodificaciones_none fun e _ u => h e u

/-- Claim C10 witness: a non-decode failure is skipped, mixed failures
fall through to utf-8, and an all-fail payload yields None. -/
theorem claim_C10_witness :
    load_csv_from_onedrive parseC10a = some 9 ∧
    load_csv_from_onedrive parseC10b = some 11 ∧
    load_csv_from_onedrive parseC10c = none :=
  ⟨(claim_C10 parseC10a 9).1 rfl rfl,
   (claim_C10 parseC10b 11).2.1 rfl rfl rfl rfl,
   (claim_C10 parseC10c 0).2.2 (by intro e u; cases e <;> simp [parseC10c])⟩
